import Mathlib

/-!
# ProtoOnlineStore — formal model of the cart subsystem

A shallow embedding of `src/Proto-Store/src/App.tsx`: the cart data model
(`Product`, `CartItem`, the cart list), the Cart Manager operations
(`addToCart`, `updateQuantity`, `removeFromCart`, the derived `total`),
the order payload (`orderData`) and the payment handler (`handlePayment`).

JavaScript numbers are modelled by `JSNum`: an exact rational or `NaN`.
Binary floating-point rounding is not modelled; arithmetic on decimal
string prices is exact over `ℚ`.  `parseFloat`/`parseInt` model the usual
decimal forms (optional sign, digits, optional fraction); exponent
notation and `Infinity` are not modelled, unparseable input yields `NaN`.
-/

-- Batteries seals rational arithmetic; reopen it so that concrete
-- computations reduce by `decide`.
attribute [local semireducible] Rat.add Rat.mul Rat.inv Rat.sub

/-- A JavaScript number: an exact rational, or `NaN`. -/
inductive JSNum where
  | nan : JSNum
  | num : ℚ → JSNum
  deriving DecidableEq, Repr

namespace JSNum

/-- JS `<`: any comparison involving `NaN` is false. -/
def lt : JSNum → JSNum → Bool
  | num a, num b => a < b
  | _, _ => false

/-- JS `+`: `NaN` is absorbing. -/
def add : JSNum → JSNum → JSNum
  | num a, num b => num (a + b)
  | _, _ => nan

/-- JS `*`: `NaN` is absorbing. -/
def mul : JSNum → JSNum → JSNum
  | num a, num b => num (a * b)
  | _, _ => nan

end JSNum

/-- Take a run of decimal digits from the front of a character list,
returning the accumulated value, the number of digits taken and the rest. -/
def takeDigits : List Char → ℕ → ℕ → ℕ × ℕ × List Char
  | c :: rest, acc, cnt =>
    if c.isDigit then takeDigits rest (acc * 10 + (c.toNat - '0'.toNat)) (cnt + 1)
    else (acc, cnt, c :: rest)
  | [], acc, cnt => (acc, cnt, [])

/-- JS `parseFloat` on the decimal forms used by the store:
optional whitespace, optional sign, integer digits, optional fraction.
No digits at all yields `NaN`. -/
def parseFloat (s : String) : JSNum :=
  let cs := s.data.dropWhile Char.isWhitespace
  let (neg, cs₁) :=
    match cs with
    | '-' :: rest => (true, rest)
    | '+' :: rest => (false, rest)
    | _ => (false, cs)
  let (intVal, intCnt, cs₂) := takeDigits cs₁ 0 0
  let (fracVal, fracCnt) :=
    match cs₂ with
    | '.' :: rest =>
      let (v, n, _) := takeDigits rest 0 0
      (v, n)
    | _ => (0, 0)
  if intCnt = 0 ∧ fracCnt = 0 then JSNum.nan
  else
    let q : ℚ := (intVal : ℚ) + (fracVal : ℚ) / (10 : ℚ) ^ fracCnt
    JSNum.num (if neg then -q else q)

/-- JS `parseInt` (radix 10): optional whitespace, optional sign, a run of
digits; no digits yields `NaN`. -/
def parseInt (s : String) : JSNum :=
  let cs := s.data.dropWhile Char.isWhitespace
  let (neg, cs₁) :=
    match cs with
    | '-' :: rest => (true, rest)
    | '+' :: rest => (false, rest)
    | _ => (false, cs)
  let (intVal, intCnt, _) := takeDigits cs₁ 0 0
  if intCnt = 0 then JSNum.nan
  else JSNum.num (if neg then -(intVal : ℚ) else (intVal : ℚ))

/-- Two-digit decimal rendering of a natural number (zero padded). -/
def twoDigits (n : ℕ) : String :=
  (if n < 10 then "0" else "") ++ toString n

/-- JS `Number.prototype.toFixed(2)`: round the magnitude to the nearest
hundredth, ties away from zero, and render with exactly two decimals.
`NaN` renders as the string `NaN`. -/
def toFixed2 : JSNum → String
  | JSNum.nan => "NaN"
  | JSNum.num q =>
    let sign := if q < 0 then "-" else ""
    let m : ℚ := |q| * 100
    let n : ℤ := ⌊m + 1 / 2⌋
    sign ++ toString (n / 100) ++ "." ++ twoDigits (n % 100).toNat

/-- `type Product = { id; name; price; description; stock }` —
price is a decimal encoded as a string. -/
structure Product where
  id : ℤ
  name : String
  price : String
  description : String
  stock : ℤ
  deriving DecidableEq, Repr

/-- `type CartItem = Product & { quantity: number }`. -/
structure CartItem extends Product where
  quantity : JSNum
  deriving DecidableEq, Repr

/-- The component state touched by the cart subsystem: the in-memory cart,
the durable-storage snapshot under the key `cart` (`none` when the key is
absent or removed), the order form fields and its visibility flag. -/
structure AppState where
  cart : List CartItem
  storage : Option (List CartItem)
  customerName : String
  deliveryAddress : String
  showOrderForm : Bool
  deriving DecidableEq, Repr

/-- `saveCart`: replace the in-memory cart and rewrite the storage
snapshot. -/
def saveCart (s : AppState) (updatedCart : List CartItem) : AppState :=
  { s with cart := updatedCart, storage := some updatedCart }

/-- `addToCart(product)`: if an item with the product's id exists, bump the
quantity of every matching item by 1, else append the product with
quantity 1; persist either way. -/
def addToCart (s : AppState) (product : Product) : AppState :=
  match s.cart.find? (fun item => item.id == product.id) with
  | some _ =>
    saveCart s (s.cart.map (fun item =>
      if item.id == product.id then
        { item with quantity := item.quantity.add (JSNum.num 1) }
      else item))
  | none =>
    saveCart s (s.cart ++ [{ toProduct := product, quantity := JSNum.num 1 }])

/-- `updateQuantity(id, quantity)`: return early when `quantity < 1`
(false for `NaN`); otherwise overwrite the quantity of every item with the
given id and persist. -/
def updateQuantity (s : AppState) (id : ℤ) (quantity : JSNum) : AppState :=
  if JSNum.lt quantity (JSNum.num 1) then s
  else
    saveCart s (s.cart.map (fun item =>
      if item.id == id then { item with quantity := quantity } else item))

/-- `removeFromCart(id)`: keep the items whose id differs and persist. -/
def removeFromCart (s : AppState) (id : ℤ) : AppState :=
  saveCart s (s.cart.filter (fun item => !(item.id == id)))

/-- The derived `total`: left fold of `sum + parseFloat(price) * quantity`
over the cart, starting from 0. -/
def total (cart : List CartItem) : JSNum :=
  cart.foldl
    (fun sum item => sum.add ((parseFloat item.price).mul item.quantity))
    (JSNum.num 0)

/-- One entry of the order payload's `items` array. -/
structure OrderItem where
  product_id : ℤ
  quantity : JSNum
  price : JSNum
  deriving DecidableEq, Repr

/-- The order payload POSTed to the create-order endpoint. -/
structure Order where
  customerName : String
  deliveryAddress : String
  items : List OrderItem
  totalStr : String
  deriving DecidableEq, Repr

/-- `orderData` as built inside `handlePayment`: one `items` entry per
cart item with `product_id`, `quantity` and parsed `price`, plus
`total.toFixed(2)`. -/
def orderData (s : AppState) : Order :=
  { customerName := s.customerName
    deliveryAddress := s.deliveryAddress
    items := s.cart.map (fun item =>
      { product_id := item.id
        quantity := item.quantity
        price := parseFloat item.price })
    totalStr := toFixed2 (total s.cart) }

/-- What `handlePayment` signals to the user: the decline alert, the
success alert, the error alert raised from the `catch` branch, or nothing
(the resolved non-201 path raises no alert). -/
inductive PayOutcome where
  | declined : PayOutcome
  | success : PayOutcome
  | failure : PayOutcome
  | silent : PayOutcome
  deriving DecidableEq, Repr

/-- Result of one `handlePayment` run: the state afterwards, the signal
raised, and whether the POST was issued at all. -/
structure HPResult where
  state : AppState
  outcome : PayOutcome
  requestSent : Bool
  deriving DecidableEq, Repr

/-- Whether axios resolves the POST: a transport failure or a status
outside 2xx rejects the promise into the `catch` branch. -/
def axiosResolves : Option ℕ → Bool
  | none => false
  | some status => decide (200 ≤ status ∧ status < 300)

/-- The state written by the HTTP-201 branch of `handlePayment`: empty
cart, storage key removed, order form hidden, both form fields cleared. -/
def clearedState (s : AppState) : AppState :=
  { s with cart := [],
           storage := none,
           showOrderForm := false,
           customerName := "",
           deliveryAddress := "" }

/-- `handlePayment`, parameterised over the environment: the user's answer
to the confirm dialog and the HTTP outcome of the POST (`none` = transport
failure, `some s` = a response with status `s`).  Declining aborts before
the POST; a resolved 201 clears cart, storage and form fields; a resolved
non-201 does nothing; a rejected POST lands in `catch` and alerts. -/
def handlePayment (s : AppState) (isPaid : Bool) (resp : Option ℕ) :
    HPResult :=
  if !isPaid then ⟨s, PayOutcome.declined, false⟩
  else if axiosResolves resp then
    if resp = some 201 then ⟨clearedState s, PayOutcome.success, true⟩
    else ⟨s, PayOutcome.silent, true⟩
  else ⟨s, PayOutcome.failure, true⟩

/-- First quantity stored under a given product id, if any. -/
def qtyOf (cart : List CartItem) (id : ℤ) : Option JSNum :=
  (cart.find? (fun item => item.id == id)).map (fun item => item.quantity)

/-- The cart invariant: no two items share a product id. -/
def idsNodup (cart : List CartItem) : Prop :=
  (cart.map (fun item => item.id)).Nodup

instance (cart : List CartItem) : Decidable (idsNodup cart) := by
  unfold idsNodup; infer_instance

/-- A quantity that is an actual number and at least 1. -/
def qtyGE1 : JSNum → Prop
  | JSNum.nan => False
  | JSNum.num q => 1 ≤ q

instance (q : JSNum) : Decidable (qtyGE1 q) := by
  cases q <;> simp [qtyGE1] <;> infer_instance

/-- Every quantity in the cart is a number that is at least 1. -/
def allQtyGE1 (cart : List CartItem) : Prop :=
  ∀ item ∈ cart, qtyGE1 item.quantity

instance (cart : List CartItem) : Decidable (allQtyGE1 cart) := by
  unfold allQtyGE1; infer_instance

/-- Numeric value of a `JSNum`, with `NaN` mapped to 0; used only to state
sums over carts whose entries are known to be numeric. -/
def jsVal : JSNum → ℚ
  | JSNum.nan => 0
  | JSNum.num q => q

/-- Specification value of one cart line: the parsed unit price times the
quantity. -/
def itemValue (item : CartItem) : ℚ :=
  jsVal (parseFloat item.price) * jsVal item.quantity

/-- Fixture: product id 1 with price string `9.99`. -/
def sampleWidget : Product := ⟨1, "Widget", "9.99", "sample product", 10⟩

/-- Fixture: product id 2 with price string `4.00`. -/
def sampleGadget : Product := ⟨2, "Gadget", "4.00", "sample product", 5⟩

/-- The scenario cart of spec §8: id 1 price `9.99` quantity 3, id 2 price
`4.00` quantity 1. -/
def scenarioCart : List CartItem :=
  [⟨sampleWidget, JSNum.num 3⟩, ⟨sampleGadget, JSNum.num 1⟩]

/-- Fixture app state holding the scenario cart, a persisted snapshot and
filled-in form fields. -/
def sampleState : AppState :=
  ⟨scenarioCart, some scenarioCart, "Ann", "Main St 1", true⟩

/-- Fixture cart whose single line has a price string that parses to a
negative number. -/
def negPriceCart : List CartItem :=
  [⟨⟨3, "Refund", "-2.00", "refund line", 1⟩, JSNum.num 1⟩]

/-! ## Helper lemmas -/

/-- `find?` by id commutes with an id-preserving map. -/
lemma find?_map_of_id_eq (l : List CartItem) (f : CartItem → CartItem)
    (hf : ∀ it, (f it).id = it.id) (j : ℤ) :
    (l.map f).find? (fun it => it.id == j) =
      (l.find? (fun it => it.id == j)).map f := by
  have hc : ((fun it : CartItem => it.id == j) ∘ f) = fun it => it.id == j := by
    funext it
    simp [Function.comp_apply, hf it]
  rw [List.find?_map, hc]

/-- `qtyOf` after an id-preserving map: the first match is the image of
the original first match. -/
lemma qtyOf_map_of_id_eq (l : List CartItem) (f : CartItem → CartItem)
    (hf : ∀ it, (f it).id = it.id) (j : ℤ) :
    qtyOf (l.map f) j =
      (l.find? (fun it => it.id == j)).map (fun it => (f it).quantity) := by
  unfold qtyOf
  rw [find?_map_of_id_eq l f hf j, Option.map_map]
  rfl

/-- A map that fixes every element of a list is the identity on it. -/
lemma map_eq_self_of_fixes (l : List CartItem) (f : CartItem → CartItem)
    (h : ∀ it ∈ l, f it = it) : l.map f = l := by
  induction l with
  | nil => rfl
  | cons a t ih =>
    simp only [List.map_cons]
    rw [h a (List.mem_cons_self a t), ih (fun it hit => h it (List.mem_cons_of_mem a hit))]

/-- An id-preserving map leaves the list of ids unchanged. -/
lemma map_id_of_id_eq (l : List CartItem) (f : CartItem → CartItem)
    (hf : ∀ it, (f it).id = it.id) :
    (l.map f).map (fun it => it.id) = l.map (fun it => it.id) := by
  rw [List.map_map]
  exact List.map_congr_left (fun it _ => hf it)

/-- A found element satisfies the find predicate and is a member. -/
lemma find?_some_mem {l : List CartItem} {p : CartItem → Bool} {it : CartItem}
    (h : l.find? p = some it) : it ∈ l ∧ p it = true :=
  ⟨List.mem_of_find?_eq_some h, List.find?_some h⟩

/-- The bump function used by `addToCart` preserves ids. -/
lemma bump_id (pid : ℤ) (it : CartItem) :
    (if it.id == pid then { it with quantity := it.quantity.add (JSNum.num 1) }
     else it).id = it.id := by
  split <;> rfl

/-- The overwrite function used by `updateQuantity` preserves ids. -/
lemma overwrite_id (i : ℤ) (qn : JSNum) (it : CartItem) :
    (if it.id == i then { it with quantity := qn } else it).id = it.id := by
  split <;> rfl

/-! ## Claim theorems -/

/-- C2: `addToCart p` persists the new cart; if an item with id `p.id`
exists, its quantity becomes its old quantity plus 1 and the cart length
is unchanged (no duplicate entry); otherwise the new item is appended
with quantity 1; items under other ids are untouched. -/
theorem addToCart_spec (s : AppState) (p : Product) :
    (addToCart s p).storage = some (addToCart s p).cart ∧
    (∀ q, qtyOf s.cart p.id = some q →
      qtyOf (addToCart s p).cart p.id = some (q.add (JSNum.num 1)) ∧
      (addToCart s p).cart.length = s.cart.length) ∧
    (qtyOf s.cart p.id = none →
      (addToCart s p).cart = s.cart ++ [{ toProduct := p, quantity := JSNum.num 1 }]) ∧
    (∀ j, j ≠ p.id → qtyOf (addToCart s p).cart j = qtyOf s.cart j) := by
  rcases hfind : s.cart.find? (fun it => it.id == p.id) with _ | it0
  · have hq : qtyOf s.cart p.id = none := by
      unfold qtyOf; rw [hfind]; rfl
    refine ⟨?_, ?_, ?_, ?_⟩
    · unfold addToCart
      rw [hfind]
      rfl
    · intro q hsome
      rw [hq] at hsome
      exact absurd hsome (by simp)
    · intro _
      unfold addToCart
      rw [hfind]
      rfl
    · intro j hj
      unfold addToCart
      rw [hfind]
      show qtyOf (s.cart ++ [{ toProduct := p, quantity := JSNum.num 1 }]) j = qtyOf s.cart j
      unfold qtyOf
      rw [List.find?_append]
      have hnone :
          List.find? (fun it => it.id == j)
            [({ toProduct := p, quantity := JSNum.num 1 } : CartItem)] = none := by
        refine List.find?_eq_none.mpr ?_
        intro x hx
        rw [List.mem_singleton] at hx
        subst hx
        show ¬ (p.id == j) = true
        simp only [beq_iff_eq]
        exact fun h => hj h.symm
      rw [hnone]
      cases s.cart.find? (fun it => it.id == j) <;> rfl
  · set f : CartItem → CartItem := fun it =>
      if it.id == p.id then { it with quantity := it.quantity.add (JSNum.num 1) } else it
      with hfdef
    have hids : ∀ it, (f it).id = it.id := fun it => bump_id p.id it
    have hstep : addToCart s p = saveCart s (s.cart.map f) := by
      unfold addToCart
      rw [hfind]
    have hmem0 := find?_some_mem hfind
    refine ⟨?_, ?_, ?_, ?_⟩
    · rw [hstep]; rfl
    · intro q hsome
      have hq : q = it0.quantity := by
        unfold qtyOf at hsome
        rw [hfind] at hsome
        simpa using hsome.symm
      constructor
      · rw [hstep]
        show qtyOf (s.cart.map f) p.id = _
        rw [qtyOf_map_of_id_eq s.cart f hids p.id, hfind]
        have : f it0 = { it0 with quantity := it0.quantity.add (JSNum.num 1) } := by
          rw [hfdef]
          simp [hmem0.2]
        simp [this, hq]
      · rw [hstep]
        exact List.length_map s.cart f
    · intro hnone
      unfold qtyOf at hnone
      rw [hfind] at hnone
      exact absurd hnone (by simp)
    · intro j hj
      rw [hstep]
      show qtyOf (s.cart.map f) j = qtyOf s.cart j
      rw [qtyOf_map_of_id_eq s.cart f hids j]
      unfold qtyOf
      rcases hf : s.cart.find? (fun it => it.id == j) with _ | it1
      · rw [hf]; rfl
      · rw [hf]
        have hid1 : it1.id = j := by simpa using (find?_some_mem hf).2
        have hne : (it1.id == p.id) = false := by
          rw [hid1]
          exact beq_eq_false_iff_ne.mpr hj
        have hfix : f it1 = it1 := by
          rw [hfdef]
          simp [hne]
        simp [hfix]

/-- C2 witness: adding the widget to the sample state bumps its stored
quantity from 3 to 3 + 1 and keeps the cart length at 2 entries. -/
theorem addToCart_spec_witness :
    qtyOf (addToCart sampleState sampleWidget).cart sampleWidget.id =
      some ((JSNum.num 3).add (JSNum.num 1)) ∧
    (addToCart sampleState sampleWidget).cart.length = sampleState.cart.length :=
  (addToCart_spec sampleState sampleWidget).2.1 (JSNum.num 3) (by decide)

/-- C3: `updateQuantity i q` with a numeric `q` below 1 is rejected with
no state change at all (no cart change, no storage write); with `q ≥ 1`
it persists and overwrites the quantity stored under `i`, items under
other ids are untouched, and when no item has id `i` the cart is left
unchanged. -/
theorem updateQuantity_spec (s : AppState) (i : ℤ) (q : ℚ) :
    (q < 1 → updateQuantity s i (JSNum.num q) = s) ∧
    (1 ≤ q →
      (updateQuantity s i (JSNum.num q)).storage =
        some (updateQuantity s i (JSNum.num q)).cart ∧
      ((∃ it ∈ s.cart, it.id = i) →
        qtyOf (updateQuantity s i (JSNum.num q)).cart i = some (JSNum.num q)) ∧
      (∀ j, j ≠ i → qtyOf (updateQuantity s i (JSNum.num q)).cart j = qtyOf s.cart j) ∧
      ((∀ it ∈ s.cart, it.id ≠ i) → (updateQuantity s i (JSNum.num q)).cart = s.cart)) := by
  constructor
  · intro hlt
    unfold updateQuantity
    rw [if_pos]
    show JSNum.lt (JSNum.num q) (JSNum.num 1) = true
    exact decide_eq_true hlt
  · intro hge
    have hguard : JSNum.lt (JSNum.num q) (JSNum.num 1) = false :=
      decide_eq_false (not_lt.mpr hge)
    set f : CartItem → CartItem := fun item =>
      if item.id == i then { item with quantity := JSNum.num q } else item
      with hfdef
    have hids : ∀ it, (f it).id = it.id := fun it => overwrite_id i (JSNum.num q) it
    have hstep : updateQuantity s i (JSNum.num q) = saveCart s (s.cart.map f) := by
      unfold updateQuantity
      rw [hguard]
      rfl
    refine ⟨by rw [hstep]; rfl, ?_, ?_, ?_⟩
    · rintro ⟨it0, hmem, hid0⟩
      rw [hstep]
      show qtyOf (s.cart.map f) i = _
      rw [qtyOf_map_of_id_eq s.cart f hids i]
      have hsome : (s.cart.find? (fun it => it.id == i)).isSome := by
        rw [List.find?_isSome]
        exact ⟨it0, hmem, by simp [hid0]⟩
      rcases hf : s.cart.find? (fun it => it.id == i) with _ | it1
      · rw [hf] at hsome; exact absurd hsome (by simp)
      · rw [hf]
        have h1 : (it1.id == i) = true := (find?_some_mem hf).2
        have : f it1 = { it1 with quantity := JSNum.num q } := by
          rw [hfdef]; simp [h1]
        simp [this]
    · intro j hj
      rw [hstep]
      show qtyOf (s.cart.map f) j = qtyOf s.cart j
      rw [qtyOf_map_of_id_eq s.cart f hids j]
      unfold qtyOf
      rcases hf : s.cart.find? (fun it => it.id == j) with _ | it1
      · rw [hf]; rfl
      · rw [hf]
        have hid1 : it1.id = j := by simpa using (find?_some_mem hf).2
        have hne : (it1.id == i) = false := by
          rw [hid1]
          exact beq_eq_false_iff_ne.mpr hj
        have hfix : f it1 = it1 := by
          rw [hfdef]; simp [hne]
        simp [hfix]
    · intro hnomatch
      rw [hstep]
      show s.cart.map f = s.cart
      refine map_eq_self_of_fixes s.cart f ?_
      intro it hit
      have hne : (it.id == i) = false := beq_eq_false_iff_ne.mpr (hnomatch it hit)
      rw [hfdef]
      simp [hne]

/-- C3 witness: on the sample state, setting id 1 to quantity 0 is a
rejected no-op, while setting it to 5 stores quantity 5. -/
theorem updateQuantity_spec_witness :
    updateQuantity sampleState 1 (JSNum.num 0) = sampleState ∧
    qtyOf (updateQuantity sampleState 1 (JSNum.num 5)).cart 1 =
      some (JSNum.num 5) := by
  refine ⟨(updateQuantity_spec sampleState 1 0).1 (by norm_num), ?_⟩
  exact ((updateQuantity_spec sampleState 1 5).2 (by norm_num)).2.1
    ⟨⟨sampleWidget, JSNum.num 3⟩, by decide, rfl⟩

/-- C9: `removeFromCart i` leaves no item with id `i`, keeps every item
with a different id and introduces nothing new; when no item had id `i`
the cart is unchanged; and the operation is idempotent on the whole
state, so a second call is a no-op. -/
theorem removeFromCart_spec (s : AppState) (i : ℤ) :
    (∀ it ∈ (removeFromCart s i).cart, it.id ≠ i) ∧
    (∀ it ∈ s.cart, it.id ≠ i → it ∈ (removeFromCart s i).cart) ∧
    (∀ it ∈ (removeFromCart s i).cart, it ∈ s.cart) ∧
    ((∀ it ∈ s.cart, it.id ≠ i) → (removeFromCart s i).cart = s.cart) ∧
    removeFromCart (removeFromCart s i) i = removeFromCart s i := by
  have hmem : ∀ it : CartItem, ∀ l : List CartItem,
      it ∈ l.filter (fun item => !(item.id == i)) ↔ it ∈ l ∧ it.id ≠ i := by
    intro it l
    rw [List.mem_filter]
    simp
  refine ⟨?_, ?_, ?_, ?_, ?_⟩
  · intro it hit
    exact ((hmem it s.cart).mp hit).2
  · intro it hit hne
    exact (hmem it s.cart).mpr ⟨hit, hne⟩
  · intro it hit
    exact ((hmem it s.cart).mp hit).1
  · intro hnone
    show s.cart.filter (fun item => !(item.id == i)) = s.cart
    refine List.filter_eq_self.mpr ?_
    intro a ha
    simp [hnone a ha]
  · show saveCart (saveCart s _) ((s.cart.filter _).filter _) = saveCart s (s.cart.filter _)
    have hff : (s.cart.filter (fun item => !(item.id == i))).filter
        (fun item => !(item.id == i)) = s.cart.filter (fun item => !(item.id == i)) := by
      refine List.filter_eq_self.mpr ?_
      intro a ha
      exact (List.mem_filter.mp ha).2
    rw [hff]
    rfl

/-- C9 witness: removing id 1 from the sample state leaves no item with
id 1, and removing it a second time changes nothing. -/
theorem removeFromCart_spec_witness :
    (∀ it ∈ (removeFromCart sampleState 1).cart, it.id ≠ 1) ∧
    removeFromCart (removeFromCart sampleState 1) 1 = removeFromCart sampleState 1 :=
  ⟨(removeFromCart_spec sampleState 1).1, (removeFromCart_spec sampleState 1).2.2.2.2⟩

/-- C6: the no-duplicate-ids invariant is preserved by each of the three
cart operations. -/
theorem cart_ids_nodup_invariant (s : AppState) (p : Product) (i : ℤ) (qn : JSNum)
    (hnd : idsNodup s.cart) :
    idsNodup (addToCart s p).cart ∧ idsNodup (updateQuantity s i qn).cart ∧
    idsNodup (removeFromCart s i).cart := by
  refine ⟨?_, ?_, ?_⟩
  · rcases hfind : s.cart.find? (fun it => it.id == p.id) with _ | it0
    · unfold addToCart
      rw [hfind]
      show idsNodup (s.cart ++ [{ toProduct := p, quantity := JSNum.num 1 }])
      unfold idsNodup at hnd ⊢
      rw [List.map_append]
      rw [List.nodup_append]
      refine ⟨hnd, List.nodup_singleton _, ?_⟩
      intro a ha hb
      have hpa : a = p.id := by simpa using hb
      subst hpa
      obtain ⟨it, hit, hid⟩ := List.mem_map.mp ha
      have := List.find?_eq_none.mp hfind it hit
      simp [hid] at this
    · unfold addToCart
      rw [hfind]
      show idsNodup (s.cart.map fun it =>
        if it.id == p.id then { it with quantity := it.quantity.add (JSNum.num 1) } else it)
      unfold idsNodup at hnd ⊢
      rw [map_id_of_id_eq _ _ (fun it => bump_id p.id it)]
      exact hnd
  · unfold updateQuantity
    by_cases hg : JSNum.lt qn (JSNum.num 1) = true
    · rw [if_pos hg]
      exact hnd
    · rw [if_neg hg]
      show idsNodup (s.cart.map fun item =>
        if item.id == i then { item with quantity := qn } else item)
      unfold idsNodup at hnd ⊢
      rw [map_id_of_id_eq _ _ (fun it => overwrite_id i qn it)]
      exact hnd
  · show idsNodup (s.cart.filter fun item => !(item.id == i))
    unfold idsNodup at hnd ⊢
    exact hnd.sublist (List.Sublist.map _ (List.filter_sublist s.cart))

/-- C6 witness: starting from the duplicate-free sample cart, all three
operations yield duplicate-free carts. -/
theorem cart_ids_nodup_invariant_witness :
    idsNodup (addToCart sampleState sampleWidget).cart ∧
    idsNodup (updateQuantity sampleState 1 (JSNum.num 2)).cart ∧
    idsNodup (removeFromCart sampleState 1).cart :=
  cart_ids_nodup_invariant sampleState sampleWidget 1 (JSNum.num 2) (by decide)

/-- C7 counterexample: all quantities of the sample cart are at least 1,
yet `updateQuantity 1 NaN` — a legal call, since the UI feeds
`parseInt` output straight in — passes the `quantity < 1` guard and
leaves a cart whose stored quantity is `NaN`, not at least 1. -/
theorem updateQuantity_nan_violates_min_quantity :
    allQtyGE1 sampleState.cart ∧
    ¬ allQtyGE1 (updateQuantity sampleState 1 JSNum.nan).cart := by
  decide

/-- C7 (amended): restricted to numeric quantity arguments, the
quantities-at-least-1 invariant is preserved by all three cart
operations; a numeric update below 1 is rejected as a no-op. -/
theorem cart_min_quantity_invariant (s : AppState) (p : Product) (i : ℤ) (q : ℚ)
    (h : allQtyGE1 s.cart) :
    allQtyGE1 (addToCart s p).cart ∧
    allQtyGE1 (updateQuantity s i (JSNum.num q)).cart ∧
    allQtyGE1 (removeFromCart s i).cart := by
  refine ⟨?_, ?_, ?_⟩
  · rcases hfind : s.cart.find? (fun it => it.id == p.id) with _ | it0
    · unfold addToCart
      rw [hfind]
      show allQtyGE1 (s.cart ++ [{ toProduct := p, quantity := JSNum.num 1 }])
      intro it hit
      rcases List.mem_append.mp hit with hold | hnew
      · exact h it hold
      · rw [List.mem_singleton] at hnew
        subst hnew
        show qtyGE1 (JSNum.num 1)
        exact le_refl 1
    · unfold addToCart
      rw [hfind]
      intro it hit
      obtain ⟨it1, hit1, rfl⟩ := List.mem_map.mp hit
      have h1 := h it1 hit1
      by_cases hid : (it1.id == p.id) = true
      · rw [if_pos hid]
        show qtyGE1 (it1.quantity.add (JSNum.num 1))
        rcases hq1 : it1.quantity with _ | m
        · rw [hq1] at h1; exact absurd h1 (by simp [qtyGE1])
        · rw [hq1] at h1
          show qtyGE1 (JSNum.num (m + 1))
          show 1 ≤ m + 1
          have hm : 1 ≤ m := h1
          linarith
      · rw [if_neg hid]
        exact h1
  · unfold updateQuantity
    by_cases hg : JSNum.lt (JSNum.num q) (JSNum.num 1) = true
    · rw [if_pos hg]
      exact h
    · rw [if_neg hg]
      have hq1 : 1 ≤ q := by
        have := (Bool.not_eq_true _).mp hg
        simpa [JSNum.lt, not_lt] using this
      intro it hit
      obtain ⟨it1, hit1, rfl⟩ := List.mem_map.mp hit
      by_cases hid : (it1.id == i) = true
      · rw [if_pos hid]
        exact hq1
      · rw [if_neg hid]
        exact h it1 hit1
  · intro it hit
    exact h it (List.mem_of_mem_filter hit)

/-- C7 witness: on the sample state, adding the widget, a numeric update
to 5 and removing id 1 all keep every quantity at least 1. -/
theorem cart_min_quantity_invariant_witness :
    allQtyGE1 (addToCart sampleState sampleWidget).cart ∧
    allQtyGE1 (updateQuantity sampleState 1 (JSNum.num 5)).cart ∧
    allQtyGE1 (removeFromCart sampleState 1).cart :=
  cart_min_quantity_invariant sampleState sampleWidget 1 5 (by decide)

/-- C10: the `updateQuantity` guard is the numeric comparison
`quantity < 1`, which is false for `NaN` (as `parseInt` yields on empty
or non-numeric input); so a `NaN` update is not rejected: it overwrites
the matching item's quantity with `NaN` and persists the cart in that
state.  A guard that evaluates to true is rejected with no state
change. -/
theorem updateQuantity_nan_leak (s : AppState) (i : ℤ) :
    parseInt "" = JSNum.nan ∧
    parseInt "abc" = JSNum.nan ∧
    (∀ q : ℚ, JSNum.lt (JSNum.num q) (JSNum.num 1) = decide (q < 1)) ∧
    JSNum.lt JSNum.nan (JSNum.num 1) = false ∧
    (∀ qn : JSNum, JSNum.lt qn (JSNum.num 1) = true → updateQuantity s i qn = s) ∧
    ((∃ it ∈ s.cart, it.id = i) →
      qtyOf (updateQuantity s i JSNum.nan).cart i = some JSNum.nan ∧
      (updateQuantity s i JSNum.nan).storage =
        some (updateQuantity s i JSNum.nan).cart) := by
  refine ⟨rfl, rfl, fun q => rfl, rfl, ?_, ?_⟩
  · intro qn hqn
    unfold updateQuantity
    rw [if_pos hqn]
  · rintro ⟨it0, hmem, hid0⟩
    set f : CartItem → CartItem := fun item =>
      if item.id == i then { item with quantity := JSNum.nan } else item
      with hfdef
    have hids : ∀ it, (f it).id = it.id := fun it => overwrite_id i JSNum.nan it
    have hstep : updateQuantity s i JSNum.nan = saveCart s (s.cart.map f) := by
      unfold updateQuantity
      rfl
    constructor
    · rw [hstep]
      show qtyOf (s.cart.map f) i = _
      rw [qtyOf_map_of_id_eq s.cart f hids i]
      have hsome : (s.cart.find? (fun it => it.id == i)).isSome := by
        rw [List.find?_isSome]
        exact ⟨it0, hmem, by simp [hid0]⟩
      rcases hf : s.cart.find? (fun it => it.id == i) with _ | it1
      · rw [hf] at hsome; exact absurd hsome (by simp)
      · rw [hf]
        have h1 : (it1.id == i) = true := (find?_some_mem hf).2
        have : f it1 = { it1 with quantity := JSNum.nan } := by
          rw [hfdef]; simp [h1]
        simp [this]
    · rw [hstep]
      rfl

/-- C10 witness: on the sample state, the `NaN` update stores `NaN`
under id 1 and rewrites the storage snapshot accordingly. -/
theorem updateQuantity_nan_leak_witness :
    qtyOf (updateQuantity sampleState 1 JSNum.nan).cart 1 = some JSNum.nan ∧
    (updateQuantity sampleState 1 JSNum.nan).storage =
      some (updateQuantity sampleState 1 JSNum.nan).cart :=
  (updateQuantity_nan_leak sampleState 1).2.2.2.2.2
    ⟨⟨sampleWidget, JSNum.num 3⟩, by decide, rfl⟩

/-- Folding the `total` step over a cart of numeric prices and
quantities adds the sum of the per-line values to the accumulator. -/
lemma total_foldl_num (c : List CartItem) (acc : ℚ)
    (h : ∀ it ∈ c, parseFloat it.price ≠ JSNum.nan ∧ it.quantity ≠ JSNum.nan) :
    c.foldl (fun sum item => sum.add ((parseFloat item.price).mul item.quantity))
      (JSNum.num acc) = JSNum.num (acc + (c.map itemValue).sum) := by
  induction c generalizing acc with
  | nil => simp
  | cons a t ih =>
    obtain ⟨hp, hq⟩ := h a (List.mem_cons_self a t)
    rcases hP : parseFloat a.price with _ | pv
    · exact absurd hP hp
    rcases hQ : a.quantity with _ | qv
    · exact absurd hQ hq
    have hval : itemValue a = pv * qv := by
      unfold itemValue
      rw [hP, hQ]
      rfl
    simp only [List.foldl_cons, List.map_cons, List.sum_cons]
    rw [hP, hQ]
    have hstep : (JSNum.num acc).add ((JSNum.num pv).mul (JSNum.num qv)) =
        JSNum.num (acc + pv * qv) := rfl
    rw [hstep, ih (acc + pv * qv) (fun it hit => h it (List.mem_cons_of_mem a hit))]
    rw [hval]
    ring_nf

/-- C4 counterexample: the total of a cart holding one unit priced
`-2.00` is the negative number −2, refuting non-negativity over all
carts. -/
theorem total_negative_counterexample :
    total negPriceCart = JSNum.num (-2) ∧
    (∀ t : ℚ, total negPriceCart = JSNum.num t → t < 0) := by
  have h : total negPriceCart = JSNum.num (-2) := by decide
  refine ⟨h, ?_⟩
  intro t ht
  rw [h] at ht
  have : (-2 : ℚ) = t := by
    injection ht
  rw [← this]
  norm_num

/-- C4 (amended): on a cart whose prices parse to numbers and whose
quantities are numeric, `total` is the exact sum over all items of
parsed unit price times quantity, and it is non-negative whenever every
per-line value is; the empty cart yields 0; the §8 scenario cart totals
exactly 33.97 and is rendered as the string `33.97`. -/
theorem total_spec (c : List CartItem)
    (hnum : ∀ it ∈ c, parseFloat it.price ≠ JSNum.nan ∧ it.quantity ≠ JSNum.nan) :
    total c = JSNum.num ((c.map itemValue).sum) ∧
    ((∀ it ∈ c, 0 ≤ itemValue it) → 0 ≤ (c.map itemValue).sum) ∧
    total ([] : List CartItem) = JSNum.num 0 ∧
    total scenarioCart = JSNum.num (3397 / 100) ∧
    toFixed2 (total scenarioCart) = "33.97" := by
  refine ⟨?_, ?_, rfl, by decide, by decide⟩
  · unfold total
    rw [total_foldl_num c 0 hnum]
    rw [zero_add]
  · intro h0
    refine List.sum_nonneg ?_
    intro x hx
    obtain ⟨it, hit, rfl⟩ := List.mem_map.mp hx
    exact h0 it hit

/-- C4 witness: the scenario cart is numeric throughout, its total is
the exact sum of its line values, and it renders as `33.97`. -/
theorem total_spec_witness :
    total scenarioCart = JSNum.num ((scenarioCart.map itemValue).sum) ∧
    toFixed2 (total scenarioCart) = "33.97" := by
  have h := total_spec scenarioCart (by decide)
  exact ⟨h.1, h.2.2.2.2⟩

/-- C5: the submitted payload carries the form fields, one `items` entry
per cart line of exactly the shape `{ product_id, quantity, price }`
with the price parsed to a number, and the computed total rendered to
two decimals as a string. -/
theorem orderData_spec (s : AppState) :
    (orderData s).customerName = s.customerName ∧
    (orderData s).deliveryAddress = s.deliveryAddress ∧
    (orderData s).items.length = s.cart.length ∧
    (∀ k : ℕ, (orderData s).items[k]? =
      (s.cart[k]?).map (fun it =>
        { product_id := it.id, quantity := it.quantity,
          price := parseFloat it.price })) ∧
    (orderData s).totalStr = toFixed2 (total s.cart) := by
  refine ⟨rfl, rfl, List.length_map s.cart _, ?_, rfl⟩
  intro k
  show (s.cart.map _)[k]? = _
  rw [List.getElem?_map]

/-- C8: declining the synchronous payment confirmation aborts
`handlePayment` before the POST: no request is sent, nothing is
signalled but the decline, and the state — cart, storage snapshot and
form fields — is exactly as before. -/
theorem handlePayment_declined_gate (s : AppState) (resp : Option ℕ) :
    handlePayment s false resp = ⟨s, PayOutcome.declined, false⟩ := rfl

/-- C1 counterexample: a confirmed submission answered with HTTP 200 —
a non-201 response — leaves the state untouched but signals neither
failure nor success: the claimed failure signal on any non-201 response
does not happen. -/
theorem handlePayment_200_no_failure_signal :
    (handlePayment sampleState true (some 200)).state = sampleState ∧
    (handlePayment sampleState true (some 200)).outcome ≠ PayOutcome.failure ∧
    (handlePayment sampleState true (some 200)).outcome ≠ PayOutcome.success := by
  decide

/-- C1 (amended): on a confirmed submission, HTTP 201 clears the cart,
removes the storage key, clears both form fields and signals success;
any non-201 outcome leaves the state untouched; a transport failure or
a non-2xx status lands in `catch` and signals failure; a 2xx status
other than 201 resolves but signals nothing. -/
theorem handlePayment_spec (s : AppState) (resp : Option ℕ) :
    (resp = some 201 →
      handlePayment s true resp = ⟨clearedState s, PayOutcome.success, true⟩ ∧
      (clearedState s).cart = [] ∧ (clearedState s).storage = none ∧
      (clearedState s).customerName = "" ∧ (clearedState s).deliveryAddress = "") ∧
    (resp ≠ some 201 → (handlePayment s true resp).state = s) ∧
    (axiosResolves resp = false →
      handlePayment s true resp = ⟨s, PayOutcome.failure, true⟩) ∧
    (axiosResolves resp = true → resp ≠ some 201 →
      handlePayment s true resp = ⟨s, PayOutcome.silent, true⟩) := by
  have hconf : handlePayment s true resp =
      if axiosResolves resp then
        (if resp = some 201 then ⟨clearedState s, PayOutcome.success, true⟩
         else ⟨s, PayOutcome.silent, true⟩)
      else ⟨s, PayOutcome.failure, true⟩ := rfl
  have h201 : axiosResolves (some 201) = true := rfl
  refine ⟨?_, ?_, ?_, ?_⟩
  · rintro rfl
    refine ⟨?_, rfl, rfl, rfl, rfl⟩
    rw [hconf, h201]
    rfl
  · intro hne
    rw [hconf]
    by_cases hres : axiosResolves resp = true
    · rw [hres, if_pos rfl, if_neg hne]
    · rw [Bool.not_eq_true] at hres
      rw [hres]
      rfl
  · intro hres
    rw [hconf, hres]
    rfl
  · intro hres hne
    rw [hconf, hres, if_pos rfl, if_neg hne]

/-- C1 witness: on the sample state, a 201 answer clears everything and
signals success, and a transport failure leaves the state as it was and
signals failure. -/
theorem handlePayment_spec_witness :
    handlePayment sampleState true (some 201) =
      ⟨⟨[], none, "", "", false⟩, PayOutcome.success, true⟩ ∧
    handlePayment sampleState true none =
      ⟨sampleState, PayOutcome.failure, true⟩ := by
  constructor
  · exact (((handlePayment_spec sampleState (some 201)).1 rfl).1).trans (by decide)
  · exact (handlePayment_spec sampleState none).2.2.1 rfl
